import Mathlib

/-!
# Verification of the keylime push-attestation verifier core

Shallow embedding of `keylime/models/verifier/push_attestation.py` (class
`PushAttestation`) together with the slices of the agent record it reads and
writes. Timestamps are modelled as integer seconds; Python `None` becomes
`Option.none`; the mutable record becomes explicit state passing; the
attestation table becomes a `List PushAttestation`; validation errors
(`_add_error`) become an explicit list of `(field, message)` pairs.

Python `datetime.timedelta` semantics: the first *positional* argument counts
days, so `timedelta(n)` denotes `n` days, i.e. `n * 86400` seconds, while
`timedelta(seconds=n)` denotes `n` seconds. Both are embedded below and the
distinction matters for `set_timestamps`.
-/

set_option maxRecDepth 16384

namespace Keylime

/-- Python `timedelta(n)` (positional argument): `n` days, in seconds. -/
def timedeltaPositional (n : Int) : Int := n * 86400

/-- Python `timedelta(seconds=n)`: `n` seconds. -/
def timedeltaSeconds (n : Int) : Int := n

/-- One row of the `attestations` table, per `PushAttestation._schema`.
Nullable or initially unset fields are `Option`; `agent_id` unset is modelled
as the empty string (Python falsiness of `self.agent_id` is used by the
`previous_*` accessors). -/
structure PushAttestation where
  agent_id : String
  index : Nat
  status : Option String
  failure_type : Option String
  boottime : Option Int
  nonce : Option String
  nonce_created_at : Option Int
  nonce_expires_at : Option Int
  hash_alg : Option String
  enc_alg : Option String
  sign_alg : Option String
  starting_ima_offset : Option Nat
  tpm_quote : Option String
  ima_entries : Option String
  mb_entries : Option String
  quoted_ima_entries_count : Option Nat
  evidence_received_at : Option Int
  deriving DecidableEq

/-- Embedding of `PushAttestation.empty()`: a record with every field unset. -/
def PushAttestation.empty : PushAttestation :=
  { agent_id := "", index := 0, status := none, failure_type := none,
    boottime := none, nonce := none, nonce_created_at := none,
    nonce_expires_at := none, hash_alg := none, enc_alg := none,
    sign_alg := none, starting_ima_offset := none, tpm_quote := none,
    ima_entries := none, mb_entries := none, quoted_ima_entries_count := none,
    evidence_received_at := none }

/-- The values admitted by the schema declaration
`cls._field("failure_type", OneOf("quote_authentication", "policy_violation"), nullable=True)`
(`push_attestation.py`, `_schema`). -/
def failure_type_allowed : List String := ["quote_authentication", "policy_violation"]

/-- The values admitted by the schema declaration
`cls._field("status", OneOf("waiting", "received", "verified", "failed"))`. -/
def status_allowed : List String := ["waiting", "received", "verified", "failed"]

/-- The slice of the agent record read and written by `PushAttestation`. -/
structure Agent where
  agent_id : String
  accept_attestations : Bool
  accept_tpm_hash_algs : List String
  accept_tpm_encryption_algs : List String
  accept_tpm_signing_algs : List String
  learned_ima_keyrings : Option String
  deriving DecidableEq

/-- A validation error recorded by `self._add_error(field, msg)`: the field
name paired with the message. -/
abbrev FieldError := String × String

/-- Embedding of `PushAttestation._set_timestamps`. `nonce_lifetime` is
`config.getint("verifier", "nonce_lifetime")`; `now` stands for
`Timestamp.now()`; `nonceChanged` and `quoteChanged` stand for
`self.changes.get("nonce")` and `self.changes.get("tpm_quote")`.
The source computes
`self.nonce_expires_at = self.nonce_created_at + timedelta(nonce_lifetime)`,
a *positional* `timedelta` argument, hence days. -/
def set_timestamps (nonce_lifetime : Int) (now : Int)
    (nonceChanged quoteChanged : Bool) (a : PushAttestation) : PushAttestation :=
  let a1 := if nonceChanged then
      { a with nonce_created_at := some now,
               nonce_expires_at := some (now + timedeltaPositional nonce_lifetime) }
    else a
  if quoteChanged then { a1 with evidence_received_at := some now } else a1

/-- Embedding of the `PushAttestation._set_algs` inner loop for one algorithm family: walk the
ordered accept list; at each element, if it occurs in the supported list,
select it and stop; otherwise record the error and continue. Returns the
selected algorithm (if any) and the recorded errors, in order. -/
def select_alg (accept supported : List String) (err : FieldError) :
    Option String × List FieldError :=
  match accept with
  | [] => (none, [])
  | a :: rest =>
    if supported.contains a then (some a, [])
    else
      let r := select_alg rest supported err
      (r.1, err :: r.2)

/-- The capability data submitted by the agent at attestation creation. -/
structure Capabilities where
  boottime : Option Int
  supported_hash_algs : List String
  supported_enc_algs : List String
  supported_sign_algs : List String
  deriving DecidableEq

/-- Embedding of `PushAttestation._set_algs`: select hash, encryption and signing
algorithms by first match between the accept lists of the agent and the
supported lists reported in the capabilities; each non-matching accept-list
element visited records a validation error. Error messages interpolate the
agent id (surrounding quote characters of the source f-strings omitted). -/
def set_algs (agent : Agent) (data : Capabilities) (a : PushAttestation) :
    PushAttestation × List FieldError :=
  let h := select_alg agent.accept_tpm_hash_algs data.supported_hash_algs
      ("hash_alg", "does not contain any accepted hashing algorithm for agent " ++ agent.agent_id)
  let e := select_alg agent.accept_tpm_encryption_algs data.supported_enc_algs
      ("enc_alg", "supported_enc_alg not in list of accpeted_tpm_enc_algs for agent " ++ agent.agent_id)
  let s := select_alg agent.accept_tpm_signing_algs data.supported_sign_algs
      ("sign_alg", "supported_sign_alg not in list of accpeted_tpm_sign_algs for agent " ++ agent.agent_id)
  ({ a with hash_alg := h.1.orElse (fun _ => a.hash_alg),
            enc_alg := e.1.orElse (fun _ => a.enc_alg),
            sign_alg := s.1.orElse (fun _ => a.sign_alg) },
   h.2 ++ e.2 ++ s.2)

/-- One entry of a `Failure` object: a stable event id plus context
(`keylime.failure.Failure.events`). -/
structure Event where
  event_id : String
  context : String
  deriving DecidableEq

/-- The event scan of `PushAttestation._set_failure_type`: the loop stops at
the first event whose id is `quote_validation.quote_validation`
(`quote_authentication`), starts with `measured_boot.invalid_pcr_`
(`log_authentication`) or is `ima.pcr_mismatch` (`log_authentication`); when
no event matches, the failure is a `policy_violation`. -/
def failure_type_of_events : List Event → String
  | [] => "policy_violation"
  | e :: rest =>
    if e.event_id = "quote_validation.quote_validation" then "quote_authentication"
    else if e.event_id.startsWith "measured_boot.invalid_pcr_" then "log_authentication"
    else if e.event_id = "ima.pcr_mismatch" then "log_authentication"
    else failure_type_of_events rest

/-- Embedding of `PushAttestation._set_failure_type`: a falsy (empty) failure leaves the
record untouched; otherwise `failure_type` is set from the event scan. -/
def set_failure_type (events : List Event) (a : PushAttestation) : PushAttestation :=
  if events.isEmpty then a
  else { a with failure_type := some (failure_type_of_events events) }

/-- Embedding of the `PushAttestation.next_ima_offset` property: the sum of
`starting_ima_offset` and `quoted_ima_entries_count` when both are set,
`None` otherwise. -/
def next_ima_offset (a : PushAttestation) : Option Nat :=
  match a.starting_ima_offset, a.quoted_ima_entries_count with
  | some s, some c => some (s + c)
  | _, _ => none

/-- Embedding of `PushAttestation._set_ima_offset`, with the result of the
`previous_authenticated_attestation` query passed explicitly. A missing
`boottime` returns without touching the record; an unset boottime on the
previous record would raise a Python `TypeError` on comparison, embedded as
`Except.error`. The elif chain compares `boottime` with the previous
authenticated attestation boottime: strictly greater (or no previous) gives
offset `0`; equal continues from the previous record `next_ima_offset`
(assigned even when that is `None`); strictly less records the boottime
regression error and assigns nothing. -/
def set_ima_offset_with (a : PushAttestation) (prev : Option PushAttestation) :
    Except String (PushAttestation × List FieldError) :=
  match a.boottime with
  | none => .ok (a, [])
  | some bt =>
    match prev with
    | none => .ok ({ a with starting_ima_offset := some 0 }, [])
    | some p =>
      match p.boottime with
      | none => .error "TypeError: comparison of datetime with None"
      | some pbt =>
        if bt > pbt then .ok ({ a with starting_ima_offset := some 0 }, [])
        else if bt = pbt then .ok ({ a with starting_ima_offset := next_ima_offset p }, [])
        else if bt < pbt then
          .ok (a, [("boottime", "must be equal to or greater than the boot time of last attestation")])
        else .ok (a, [])

/-- The record with the greatest `index` in a list, i.e. the first row under
`_sort=desc("index")`; `none` on an empty list. -/
def maxByIndex : List PushAttestation → Option PushAttestation
  | [] => none
  | r :: rest =>
    match maxByIndex rest with
    | none => some r
    | some b => if b.index < r.index then some r else some b

/-- Embedding of `PushAttestation.get_last`: the attestation of the given agent with the
greatest index, or `none`. The attestation table is modelled as a list. -/
def get_last (store : List PushAttestation) (agent_id : String) : Option PushAttestation :=
  maxByIndex (store.filter (fun r => r.agent_id = agent_id))

/-- Embedding of `PushAttestation.previous_authenticated_attestation`: the most recent
attestation of the same agent whose status is verified or failed, whose
failure type is not quote_authentication (or is null), and whose index is
strictly below the index of the present record. -/
def previous_authenticated_attestation (store : List PushAttestation)
    (self : PushAttestation) : Option PushAttestation :=
  if self.agent_id = "" then none
  else maxByIndex (store.filter (fun r =>
    r.agent_id = self.agent_id ∧
    (r.status = some "verified" ∨ r.status = some "failed") ∧
    (r.failure_type ≠ some "quote_authentication" ∨ r.failure_type = none) ∧
    r.index < self.index))

/-- Embedding of `PushAttestation.previous_successful_attestation`: the query filters on
the agent id and `status="verified"` and sorts by descending index only — it
carries no condition on `index` relative to the present record. -/
def previous_successful_attestation (store : List PushAttestation)
    (self : PushAttestation) : Option PushAttestation :=
  if self.agent_id = "" then none
  else maxByIndex (store.filter (fun r =>
    r.agent_id = self.agent_id ∧ r.status = some "verified"))

/-- Embedding of the `PushAttestation.next_attestation_expected_after` property:
`(evidence_received_at or nonce_created_at) + quote_interval` seconds; `none`
embeds the `TypeError` raised when both timestamps are unset. -/
def next_attestation_expected_after (quote_interval : Int) (a : PushAttestation) :
    Option Int :=
  match a.evidence_received_at with
  | some t => some (t + timedeltaSeconds quote_interval)
  | none =>
    match a.nonce_created_at with
    | some t => some (t + timedeltaSeconds quote_interval)
    | none => none

/-- Embedding of the `PushAttestation.decision_expected_by` property: `verification_timeout`
seconds after `evidence_received_at`, or after
`nonce_created_at + quote_interval` when evidence has not been received. -/
def decision_expected_by (quote_interval verification_timeout : Int)
    (a : PushAttestation) : Option Int :=
  match a.evidence_received_at with
  | some t => some (t + timedeltaSeconds verification_timeout)
  | none =>
    match a.nonce_created_at with
    | some t => some (t + timedeltaSeconds quote_interval + timedeltaSeconds verification_timeout)
    | none => none

/-- Embedding of `PushAttestation.accept_new_attestations_in(agent_id)`: computed from the
stored attestations of the agent and the clock alone — the agent record (and
so its `accept_attestations` flag) is never consulted. No last attestation
gives `0`; before `next_attestation_expected_after` the remaining gap is
returned; a received attestation within `decision_expected_by` returns
`decision_expected_by + now` (the source adds the timestamps); otherwise `0`. -/
def accept_new_attestations_in (quote_interval verification_timeout : Int)
    (store : List PushAttestation) (agent_id : String) (now : Int) : Option Int :=
  match get_last store agent_id with
  | none => some 0
  | some last =>
    match next_attestation_expected_after quote_interval last with
    | none => none
    | some naea =>
      if now < naea then some (naea - now)
      else
        match decision_expected_by quote_interval verification_timeout last with
        | none => none
        | some deb =>
          if last.status = some "received" ∧ now ≤ deb then some (deb + now)
          else some 0

/-- Python truthiness of an optional string field: falsy when unset or empty. -/
def truthyStr : Option String → Bool
  | none => false
  | some s => s ≠ ""

/-- Holds when `as` is an initial segment of `bs` (character lists). -/
def leadsChars : List Char → List Char → Bool
  | [], _ => true
  | _ :: _, [] => false
  | a :: as, b :: bs => a = b && leadsChars as bs

/-- Holds when `sub` occurs contiguously somewhere in `l` (character lists). -/
def infixChars (sub : List Char) : List Char → Bool
  | [] => leadsChars sub []
  | b :: bs => leadsChars sub (b :: bs) || infixChars sub bs

/-- Python `sub in s` on strings: substring containment. -/
def containsSub (s sub : String) : Bool := infixChars sub.data s.data

/-- The evidence payload bound by `receive_evidence` via
`cast_changes(data, ["tpm_quote", "ima_entries", "mb_entries"])` together
with the echoed `starting_ima_offset`; a missing key is `none`. -/
structure EvidenceData where
  tpm_quote : Option String
  ima_entries : Option String
  mb_entries : Option String
  starting_ima_offset : Option Nat
  deriving DecidableEq

/-- Modelled from the spec: `cast_changes` of the model base class
(`keylime.models.base`, not among the sources under review) binds the listed
keys of the payload onto the record, leaving absent keys untouched. -/
def cast_evidence_changes (a : PushAttestation) (d : EvidenceData) : PushAttestation :=
  { a with tpm_quote := d.tpm_quote.orElse (fun _ => a.tpm_quote),
           ima_entries := d.ima_entries.orElse (fun _ => a.ima_entries),
           mb_entries := d.mb_entries.orElse (fun _ => a.mb_entries) }

/-- Modelled from the spec: `validate_required` of the model base class (not
among the sources under review) records an error on each listed field whose
value is still unset. Instantiated for the field list of `receive_evidence`:
`["tpm_quote", "hash_alg", "enc_alg", "sign_alg"]`. -/
def validate_required_evidence (a : PushAttestation) : List FieldError :=
  (if ¬ truthyStr a.tpm_quote then [("tpm_quote", "is required")] else [])
  ++ (if ¬ truthyStr a.hash_alg then [("hash_alg", "is required")] else [])
  ++ (if ¬ truthyStr a.enc_alg then [("enc_alg", "is required")] else [])
  ++ (if ¬ truthyStr a.sign_alg then [("sign_alg", "is required")] else [])

/-- Embedding of `PushAttestation._validate_ima_entries`: IMA entries are required exactly
when a runtime policy exists; the echoed starting offset must equal the
stored one; and an evidence list starting at offset 0 must open with a
boot_aggregate entry (message quotes around boot_aggregate omitted). -/
def validate_ima_entries (a : PushAttestation) (starting_ima_offset_received : Option Nat)
    (runtime_policy : Bool) : List FieldError :=
  (if runtime_policy ∧ ¬ truthyStr a.ima_entries then
      [("ima_entries", "is required by agent policy")] else [])
  ++ (if truthyStr a.ima_entries ∧ ¬ runtime_policy then
      [("ima_entries", "is not expected according to agent policy")] else [])
  ++ (if starting_ima_offset_received ≠ a.starting_ima_offset then
      [("starting_ima_offset", "is not the expected starting ima offset for this attestation")] else [])
  ++ (if starting_ima_offset_received = some 0 then
      (let entries := a.ima_entries.getD ""
       let first := (entries.splitOn "\n").headD ""
       if ¬ containsSub first "boot_aggregate" then
         [("ima_entries", "should start with a boot_aggregate entry when the starting offset is 0")]
       else [])
      else [])

/-- Embedding of `PushAttestation._set_status`: default to waiting when unset; a changed
quote moves the record to received. -/
def set_status (quoteChanged : Bool) (a : PushAttestation) : PushAttestation :=
  let a1 := if a.status = none then { a with status := some "waiting" } else a
  if quoteChanged then { a1 with status := some "received" } else a1

/-- Embedding of `PushAttestation.receive_evidence(data, runtime_policy)`: refuse when the
committed status is already received; otherwise bind the evidence fields,
record validation errors, stamp `evidence_received_at` and move the status to
received when a quote is bound. The `nonce_lifetime` argument of
`set_timestamps` is irrelevant here (the nonce is unchanged), so 0 is
passed. Note: no comparison against `nonce_expires_at` occurs anywhere in
this operation. -/
def receive_evidence (now : Int) (committed_status : Option String)
    (runtime_policy : Bool) (a : PushAttestation) (d : EvidenceData) :
    Except String (PushAttestation × List FieldError) :=
  if committed_status = some "received" then
    .error "Attestation object cannot be updated as it has already received evidence"
  else
    let a1 := cast_evidence_changes a d
    let errs := validate_required_evidence a1
      ++ validate_ima_entries a1 d.starting_ima_offset runtime_policy
    let quoteChanged := truthyStr d.tpm_quote
    let a2 := set_timestamps 0 now false quoteChanged a1
    .ok (set_status quoteChanged a2, errs)

/-- The tail of `PushAttestation.verify_evidence` after `check_quote`
returns: `events` is the merged failure event list (empty means success) and
`derived_keyrings` stands for `attest_state.get_ima_keyrings().to_json()`.
The status becomes verified or failed, the agent gate `accept_attestations`
is set accordingly, `_set_failure_type` runs, and `learned_ima_keyrings` is
persisted on the agent exactly when the failure type is not
quote_authentication. -/
def verify_evidence_outcome (events : List Event) (derived_keyrings : String)
    (a : PushAttestation) (agent : Agent) : PushAttestation × Agent :=
  let a1 := { a with status := some (if events.isEmpty then "verified" else "failed") }
  let agent1 := { agent with accept_attestations := a1.status == some "verified" }
  let a2 := set_failure_type events a1
  let agent2 :=
    if a2.failure_type ≠ some "quote_authentication" then
      { agent1 with learned_ima_keyrings := some derived_keyrings }
    else agent1
  (a2, agent2)

/-- Modelled from the spec: `PersistableModel.commit_changes` of the model
base class (not among the sources under review) writes the record into the
store, overwriting a stored record with the same `(agent_id, index)` key and
appending otherwise. -/
def persist (store : List PushAttestation) (a : PushAttestation) : List PushAttestation :=
  if store.any (fun r => r.agent_id == a.agent_id && r.index == a.index) then
    store.map (fun r => if r.agent_id = a.agent_id ∧ r.index = a.index then a else r)
  else store ++ [a]

/-- The error message of `PushAttestation.commit_changes` (surrounding quote
characters of the source f-string omitted). -/
def commit_conflict_message (agent_id : String) : String :=
  "An attestation for agent " ++ agent_id ++ " was created while another was mid-creation"

/-- Embedding of `PushAttestation.commit_changes`: before persisting a record in status
waiting, re-read the agent last attestation and refuse when its index is
greater than or equal to the index of the record being committed. -/
def commit_changes (store : List PushAttestation) (a : PushAttestation) :
    Except String (List PushAttestation) :=
  if a.status = some "waiting" then
    match get_last store a.agent_id with
    | some last =>
      if last.index ≥ a.index then .error (commit_conflict_message a.agent_id)
      else .ok (persist store a)
    | none => .ok (persist store a)
  else .ok (persist store a)

end Keylime

namespace Keylime

/-- Concrete fixture: attestation creation at time `0` with
`nonce_lifetime = 5` and a freshly generated nonce. -/
def c1_att : PushAttestation := set_timestamps 5 0 true false PushAttestation.empty

/-- Concrete fixture for C2: the agent of spec scenario 1, with ordered
accept lists down-prioritising sha256. -/
def c2_agent : Agent :=
  { agent_id := "agent-1", accept_attestations := true,
    accept_tpm_hash_algs := ["sha512", "sha256"],
    accept_tpm_encryption_algs := ["rsa"],
    accept_tpm_signing_algs := ["rsassa"],
    learned_ima_keyrings := none }

/-- Concrete fixture for C2: the capabilities of the claim, sharing sha256
with the accept list. -/
def c2_caps : Capabilities :=
  { boottime := some 1000,
    supported_hash_algs := ["sha256", "sha1"],
    supported_enc_algs := ["rsa"],
    supported_sign_algs := ["rsassa"] }

/-- Concrete fixture for C4: an agent gated off after a failed verification. -/
def c4_agent : Agent :=
  { agent_id := "agent-4", accept_attestations := false,
    accept_tpm_hash_algs := ["sha256"],
    accept_tpm_encryption_algs := ["rsa"],
    accept_tpm_signing_algs := ["rsassa"],
    learned_ima_keyrings := none }

/-- Concrete fixture for C7: a verified attestation of agent-7 at index 0. -/
def c7_att : PushAttestation :=
  { PushAttestation.empty with
      agent_id := "agent-7", index := 0, status := some "verified",
      boottime := some 1000, nonce := some "n0",
      nonce_created_at := some 0, nonce_expires_at := some 5,
      hash_alg := some "sha256", enc_alg := some "rsa", sign_alg := some "rsassa",
      starting_ima_offset := some 0, quoted_ima_entries_count := some 125 }

/-- Concrete fixture for C3: a committed waiting attestation whose nonce
expired at time 5 (continuation attestation, starting offset 1). -/
def c3_att : PushAttestation :=
  { PushAttestation.empty with
      agent_id := "agent-3", index := 1, status := some "waiting",
      boottime := some 1000, nonce := some "n3",
      nonce_created_at := some 0, nonce_expires_at := some 5,
      hash_alg := some "sha256", enc_alg := some "rsa", sign_alg := some "rsassa",
      starting_ima_offset := some 1 }

/-- Concrete fixture for C3: well-formed evidence submitted at time 10. -/
def c3_evidence : EvidenceData :=
  { tpm_quote := some "quoteblob", ima_entries := some "ima entry line",
    mb_entries := none, starting_ima_offset := some 1 }

/-- The record C3 evidence submission produces: evidence bound, received at
time 10, status moved to received. -/
def c3_expected : PushAttestation :=
  { c3_att with tpm_quote := some "quoteblob",
                ima_entries := some "ima entry line",
                evidence_received_at := some 10,
                status := some "received" }

/-- Concrete fixture for the C6 witness: a new attestation reporting the same
boottime as the previous authenticated attestation. -/
def c6_self : PushAttestation :=
  { PushAttestation.empty with
      agent_id := "agent-6", index := 1, boottime := some 1000 }

/-- Concrete fixture for the C6 witness: the previous authenticated
attestation, offset 3 and 5 quoted entries. -/
def c6_prev : PushAttestation :=
  { PushAttestation.empty with
      agent_id := "agent-6", index := 0, status := some "verified",
      boottime := some 1000, starting_ima_offset := some 3,
      quoted_ima_entries_count := some 5 }

/-- Concrete fixture for the C8 witness: a freshly received attestation with
no failure type assigned yet. -/
def c8_att : PushAttestation :=
  { PushAttestation.empty with
      agent_id := "agent-8", index := 0, status := some "received",
      boottime := some 1000, starting_ima_offset := some 0 }

/-- Concrete fixture for the C8 witness: the agent before verification. -/
def c8_agent : Agent :=
  { agent_id := "agent-8", accept_attestations := true,
    accept_tpm_hash_algs := ["sha256"],
    accept_tpm_encryption_algs := ["rsa"],
    accept_tpm_signing_algs := ["rsassa"],
    learned_ima_keyrings := some "old-keyrings" }

/-- Concrete fixture for the C9 witness: an attestation of agent-9 already in
the store at index 0. -/
def c9_stored : PushAttestation :=
  { PushAttestation.empty with
      agent_id := "agent-9", index := 0, status := some "waiting",
      nonce_created_at := some 0 }

/-- Concrete fixture for the C9 witness: a concurrently created record of
agent-9 also carrying index 0, in status waiting. -/
def c9_new : PushAttestation :=
  { PushAttestation.empty with
      agent_id := "agent-9", index := 0, status := some "waiting",
      nonce_created_at := some 1 }

/-- Concrete fixture for the C10 witness: a waiting attestation without IMA
evidence yet. -/
def c10_att : PushAttestation :=
  { PushAttestation.empty with
      agent_id := "agent-10", index := 0, status := some "waiting",
      nonce_created_at := some 0, nonce_expires_at := some 600,
      hash_alg := some "sha256", enc_alg := some "rsa", sign_alg := some "rsassa",
      starting_ima_offset := some 4 }

/-- Concrete fixture for the C10 witness: evidence carrying IMA entries for
an agent that has no runtime policy. -/
def c10_evidence : EvidenceData :=
  { tpm_quote := some "quoteblob", ima_entries := some "some ima line",
    mb_entries := none, starting_ima_offset := some 4 }

/-- C1: the claim asserts `nonce_expires_at = nonce_created_at + nonce_lifetime`
with `nonce_lifetime` in seconds, for every configured value. It fails:
`_set_timestamps` adds `timedelta(nonce_lifetime)`, whose positional argument
is a count of *days*. With `nonce_lifetime = 5` and the nonce minted at time
`0`, the code sets `nonce_expires_at` to `432000` seconds (5 days), not `5`. -/
theorem C1_nonce_lifetime_in_days :
    c1_att.nonce_created_at = some 0 ∧
    c1_att.nonce_expires_at = some 432000 ∧
    (432000 : Int) ≠ 0 + 5 := by decide

/-- C2: with `accept_tpm_hash_algs = [sha512, sha256]` and
`supported_hash_algs = [sha256, sha1]`, the first accepted algorithm present
in the supported list (sha256) is selected, as the claim states; but the
claim also states that no validation error is recorded when a common
algorithm exists, and that fails: the error branch sits inside the loop, so
visiting the non-matching sha512 records a `hash_alg` error even though the
negotiation then succeeds. -/
theorem C2_spurious_error_on_first_match :
    (set_algs c2_agent c2_caps PushAttestation.empty).1.hash_alg = some "sha256" ∧
    ("hash_alg", "does not contain any accepted hashing algorithm for agent agent-1")
      ∈ (set_algs c2_agent c2_caps PushAttestation.empty).2 := by decide

/-- C4: the claim asserts that `accept_new_attestations_in(agent_id)` refuses
a new cycle whenever the agent has `accept_attestations = false`. It fails:
the function receives only the agent id, never loads the agent record, and
computes its result purely from the stored attestations and the clock. For an
agent gated off (`accept_attestations = false`) with no stored attestation it
returns a wait of `0`, not an infinite duration or a refusal sentinel. -/
theorem C4_flag_never_consulted :
    c4_agent.accept_attestations = false ∧
    accept_new_attestations_in 60 30 [] c4_agent.agent_id 1000 = some 0 := by decide

/-- C5: the claim asserts that `failure_type` may take (and be stored with)
the value `log_authentication`. The event scan of `_set_failure_type` does
assign `log_authentication` for an `ima.pcr_mismatch` event, but the schema
declares the column as `OneOf("quote_authentication", "policy_violation")`,
which excludes `log_authentication`: the value the verifier computes is not
among the values the schema admits for storage. -/
theorem C5_log_authentication_not_in_schema :
    (set_failure_type [⟨"ima.pcr_mismatch", "pcr 10 does not match ima log"⟩]
        PushAttestation.empty).failure_type = some "log_authentication" ∧
    "log_authentication" ∉ failure_type_allowed := by decide

/-- C7: the claim asserts that the previous-successful-attestation query only
returns records with index strictly below the present record and never the
record itself. It fails: the query filters on agent id and verified status
and sorts by descending index, with no bound on the index. On a store holding
a single verified attestation, the query invoked on that very record returns
the record itself. -/
theorem C7_returns_itself :
    c7_att.status = some "verified" ∧
    previous_successful_attestation [c7_att] c7_att = some c7_att := by decide

/-- C3: the claim asserts that evidence submitted after `nonce_expires_at` is
refused with a NonceExpired error and the record stays waiting. It fails:
`receive_evidence` contains no comparison against `nonce_expires_at` (the
field is written at creation and never read). On a waiting attestation whose
nonce expired at time 5, evidence submitted at time 10 is accepted without
any error and the status moves to received. -/
theorem C3_expired_nonce_accepted :
    c3_att.nonce_expires_at = some 5 ∧ (5 : Int) < 10 ∧
    (receive_evidence 10 (some "waiting") true c3_att c3_evidence).toOption =
      some (c3_expected, []) := by decide

/-- C6: `_set_ima_offset` computes the starting IMA offset from the previous
authenticated attestation: 0 when none exists or when the reported boottime
is strictly greater than its boottime; the sum of its starting offset and its
quoted entry count when the boottimes are equal; and on a strictly smaller
boottime it records the regression error and assigns no offset. -/
theorem C6_starting_ima_offset (a p : PushAttestation) (bt pbt : Int) (s c : Nat)
    (hb : a.boottime = some bt) (hpb : p.boottime = some pbt) :
    (set_ima_offset_with a none = .ok ({ a with starting_ima_offset := some 0 }, []))
    ∧ (pbt < bt →
        set_ima_offset_with a (some p) = .ok ({ a with starting_ima_offset := some 0 }, []))
    ∧ (bt = pbt → p.starting_ima_offset = some s → p.quoted_ima_entries_count = some c →
        set_ima_offset_with a (some p) =
          .ok ({ a with starting_ima_offset := some (s + c) }, []))
    ∧ (bt < pbt →
        set_ima_offset_with a (some p) =
          .ok (a, [("boottime", "must be equal to or greater than the boot time of last attestation")])) := by
  refine ⟨?_, ?_, ?_, ?_⟩
  · simp [set_ima_offset_with, hb]
  · intro hlt
    simp [set_ima_offset_with, hb, hpb, hlt]
  · intro heq hs hc
    simp [set_ima_offset_with, hb, hpb, heq, next_ima_offset, hs, hc]
  · intro hlt
    have h1 : ¬ bt > pbt := by omega
    have h2 : ¬ bt = pbt := by omega
    simp [set_ima_offset_with, hb, hpb, h1, h2, hlt]

/-- Witness for C6: with equal boottimes 1000 and a previous authenticated
attestation at offset 3 with 5 quoted entries, the new offset is 8. -/
theorem C6_starting_ima_offset_witness :
    set_ima_offset_with c6_self (some c6_prev) =
      .ok ({ c6_self with starting_ima_offset := some 8 }, []) :=
  (C6_starting_ima_offset c6_self c6_prev 1000 1000 3 5 (by rfl) (by rfl)).2.2.1
    rfl (by rfl) (by rfl)

/-- C8: in `verify_evidence`, when the outcome carries
`failure_type = quote_authentication` the agent field `learned_ima_keyrings`
is left unchanged, and when the outcome is verified, or failed with any other
failure type, the keyring derived from the attestation state is persisted
onto the agent. The hypothesis reflects the entry state: `failure_type` is
unset until `_set_failure_type` runs. -/
theorem C8_learned_keyrings_frame (events : List Event) (dk : String)
    (a : PushAttestation) (agent : Agent) (h : a.failure_type = none) :
    ((verify_evidence_outcome events dk a agent).1.failure_type = some "quote_authentication" →
      (verify_evidence_outcome events dk a agent).2.learned_ima_keyrings =
        agent.learned_ima_keyrings)
    ∧ ((verify_evidence_outcome events dk a agent).1.status = some "verified" ∨
        (verify_evidence_outcome events dk a agent).1.failure_type ≠ some "quote_authentication" →
      (verify_evidence_outcome events dk a agent).2.learned_ima_keyrings = some dk) := by
  by_cases he : events.isEmpty
  · constructor
    · intro hft
      simp [verify_evidence_outcome, set_failure_type, he, h] at hft
    · intro _
      simp [verify_evidence_outcome, set_failure_type, he, h]
  · by_cases hqa : failure_type_of_events events = "quote_authentication"
    · constructor
      · intro _
        simp [verify_evidence_outcome, set_failure_type, he, hqa]
      · intro hyp
        rcases hyp with hv | hft
        · simp [verify_evidence_outcome, set_failure_type, he] at hv
        · simp [verify_evidence_outcome, set_failure_type, he, hqa] at hft
    · constructor
      · intro hft
        simp [verify_evidence_outcome, set_failure_type, he, hqa] at hft
      · intro _
        simp [verify_evidence_outcome, set_failure_type, he, hqa]

/-- Witness for C8: a policy violation (event outside the authentication
classes) persists the derived keyring onto the agent. -/
theorem C8_learned_keyrings_frame_witness :
    (((verify_evidence_outcome [⟨"ima.hash_mismatch", "bad file digest"⟩] "new-keyrings"
          c8_att c8_agent).1.failure_type = some "quote_authentication" →
      (verify_evidence_outcome [⟨"ima.hash_mismatch", "bad file digest"⟩] "new-keyrings"
          c8_att c8_agent).2.learned_ima_keyrings = c8_agent.learned_ima_keyrings)
    ∧ ((verify_evidence_outcome [⟨"ima.hash_mismatch", "bad file digest"⟩] "new-keyrings"
          c8_att c8_agent).1.status = some "verified" ∨
        (verify_evidence_outcome [⟨"ima.hash_mismatch", "bad file digest"⟩] "new-keyrings"
          c8_att c8_agent).1.failure_type ≠ some "quote_authentication" →
      (verify_evidence_outcome [⟨"ima.hash_mismatch", "bad file digest"⟩] "new-keyrings"
          c8_att c8_agent).2.learned_ima_keyrings = some "new-keyrings")) :=
  C8_learned_keyrings_frame [⟨"ima.hash_mismatch", "bad file digest"⟩] "new-keyrings"
    c8_att c8_agent rfl

/-- The head of a descending-index query dominates every list member. -/
theorem maxByIndex_dominates {l : List PushAttestation} {r : PushAttestation}
    (hr : r ∈ l) : ∃ m, maxByIndex l = some m ∧ r.index ≤ m.index := by
  induction l with
  | nil => cases hr
  | cons a rest ih =>
    rcases List.mem_cons.mp hr with h | h
    · subst h
      cases hm : maxByIndex rest with
      | none => exact ⟨r, by simp [maxByIndex, hm], Nat.le_refl _⟩
      | some b =>
        by_cases hb : b.index < r.index
        · exact ⟨r, by simp [maxByIndex, hm, hb], Nat.le_refl _⟩
        · exact ⟨b, by simp [maxByIndex, hm, hb], Nat.le_of_not_lt hb⟩
    · obtain ⟨m, hm, hle⟩ := ih h
      by_cases hb : m.index < a.index
      · exact ⟨a, by simp [maxByIndex, hm, hb], Nat.le_of_lt (Nat.lt_of_le_of_lt hle hb)⟩
      · exact ⟨m, by simp [maxByIndex, hm, hb], hle⟩

/-- C9: committing an attestation in status waiting raises the mid-creation
conflict error (persisting nothing) whenever the store already holds an
attestation of the same agent whose index is greater than or equal to the
index of the record being committed. -/
theorem C9_commit_conflict (store : List PushAttestation) (a r : PushAttestation)
    (hst : a.status = some "waiting") (hr : r ∈ store)
    (hag : r.agent_id = a.agent_id) (hi : a.index ≤ r.index) :
    commit_changes store a = .error (commit_conflict_message a.agent_id) := by
  have hrf : r ∈ store.filter (fun x => x.agent_id = a.agent_id) := by
    simp [List.mem_filter, hr, hag]
  obtain ⟨m, hm, hle⟩ := maxByIndex_dominates hrf
  have hglast : get_last store a.agent_id = some m := hm
  have hge : m.index ≥ a.index := Nat.le_trans hi hle
  simp [commit_changes, hst, hglast, hge]

/-- Witness for C9: committing a waiting record of agent-9 at index 0 while
the store already holds an agent-9 record at index 0 raises the conflict. -/
theorem C9_commit_conflict_witness :
    commit_changes [c9_stored] c9_new = .error (commit_conflict_message c9_new.agent_id) :=
  C9_commit_conflict [c9_stored] c9_new c9_stored rfl (by decide) rfl (by decide)

/-- C10: every `receive_evidence` call that supplies (non-empty) IMA entries
for an agent without a runtime policy records the validation error
("is not expected according to agent policy") on the `ima_entries` field, so
the evidence does not validate cleanly. -/
theorem C10_unexpected_ima_entries (now : Int) (cs : Option String)
    (a : PushAttestation) (d : EvidenceData) (s : String)
    (hcs : cs ≠ some "received") (hd : d.ima_entries = some s) (hs : s ≠ "") :
    ∃ rec errs, receive_evidence now cs false a d = .ok (rec, errs) ∧
      ("ima_entries", "is not expected according to agent policy") ∈ errs := by
  have hima : (cast_evidence_changes a d).ima_entries = some s := by
    simp [cast_evidence_changes, hd, Option.orElse]
  have hmem : ("ima_entries", "is not expected according to agent policy")
      ∈ validate_required_evidence (cast_evidence_changes a d)
        ++ validate_ima_entries (cast_evidence_changes a d) d.starting_ima_offset false := by
    apply List.mem_append_right
    simp [validate_ima_entries, hima, truthyStr, hs, List.mem_append]
  unfold receive_evidence
  rw [if_neg hcs]
  exact ⟨_, _, rfl, hmem⟩

/-- Witness for C10: evidence with IMA entries is flagged when the agent has
no runtime policy. -/
theorem C10_unexpected_ima_entries_witness :
    ∃ rec errs, receive_evidence 20 (some "waiting") false c10_att c10_evidence =
        .ok (rec, errs) ∧
      ("ima_entries", "is not expected according to agent policy") ∈ errs :=
  C10_unexpected_ima_entries 20 (some "waiting") c10_att c10_evidence
    "some ima line" (by decide) rfl (by decide)

end Keylime
